import Mathlib

/-!
A shallow embedding of the `autosend` Go client library
(`github.com/dapoadedire/autosend-go`), covering the client configuration
(`client.go`, the functional options file), the send-email pipeline
(`email.go`), the error classifier (`client.go`) and the `APIError`
predicates.

Modelling conventions:
* Go `time.Duration` and machine integers (`int`, `int64`) become `Int`;
  where the standard library clamps to the 64-bit range (`strconv.Atoi`,
  `strconv.ParseInt`) the clamp is modelled explicitly.
* A Go pointer to `http.Client` is modelled as a value carrying an `id : Nat`
  identity tag; in-place mutation is explicit state passing that preserves
  the tag, and a fresh allocation receives a caller-supplied fresh tag.
* A nil pointer (`*SendEmailRequest`, `*http.Client`) is `Option`.
* The standard-library JSON codec (`json.Marshal` / `json.Unmarshal`) is
  abstracted as an explicit `JsonCodec` parameter: the library's own logic
  only branches on whether (un)marshalling succeeded, never on how.
* The HTTP transport (`http.Client.Do`) is an explicit function parameter;
  the pipeline returns, next to its result, the list of requests actually
  handed to the transport, so that "the transport was never invoked" is the
  statement that this list is empty.  Context cancellation and I/O failures
  while reading an already-received body are below the granularity of this
  embedding (the body of a received response is a `String` already in hand).
* `http.NewRequestWithContext` cannot fail for the fixed method `"POST"` and
  the URLs formed here, so request construction is modelled as total.
-/

namespace Autosend

/-- Go `time.Duration` is an `int64` count of nanoseconds; `time.Second`. -/
def timeSecond : Int := 1000000000

/-- Source `DefaultBaseURL` from `client.go`. -/
def DefaultBaseURL : String := "https://api.autosend.com/v1"

/-- Source `DefaultTimeout = 30 * time.Second` from `client.go`. -/
def DefaultTimeout : Int := 30 * timeSecond

/-- The part of Go's `http.Client` this library touches: its `Timeout`
field, plus an identity tag standing for the pointer identity of the
heap object. -/
structure HttpClient where
  id : Nat
  Timeout : Int
  deriving Repr, DecidableEq

/-- Source `Client` from `client.go`: `apiKey`, `baseURL`, `httpClient`.
The `httpClient` field is always non-nil after construction. -/
structure Client where
  apiKey : String
  baseURL : String
  httpClient : HttpClient
  deriving Repr, DecidableEq

/-- Source `Config` from `client.go`. `HTTPClient` is a nilable pointer. -/
structure Config where
  APIKey : String
  BaseURL : String
  HTTPClient : Option HttpClient
  Timeout : Int
  deriving Repr, DecidableEq

/-- Source `NewClient` from `client.go`: defaults for base URL and timeout.
`freshId` is the identity of the freshly allocated `http.Client`. -/
def NewClient (freshId : Nat) (apiKey : String) : Client :=
  { apiKey := apiKey
    baseURL := DefaultBaseURL
    httpClient := { id := freshId, Timeout := DefaultTimeout } }

/-- Source `NewClientWithConfig` from `client.go`: an empty `BaseURL` is replaced
by the default; a nil `HTTPClient` is replaced by a fresh client whose
timeout is `config.Timeout`, itself defaulted when zero.  A non-nil
`HTTPClient` is used as supplied. -/
def NewClientWithConfig (freshId : Nat) (config : Config) : Client :=
  let baseURL := if config.BaseURL = "" then DefaultBaseURL else config.BaseURL
  let httpClient :=
    match config.HTTPClient with
    | some hc => hc
    | none =>
      let timeout := if config.Timeout = 0 then DefaultTimeout else config.Timeout
      { id := freshId, Timeout := timeout }
  { apiKey := config.APIKey, baseURL := baseURL, httpClient := httpClient }

/-- Source `ClientOption` from the functional-options file: a mutator of the
client under construction, modelled as explicit state passing. -/
def ClientOption : Type := Client → Client

/-- Source `WithBaseURL` from the functional-options file. -/
def WithBaseURL (baseURL : String) : ClientOption :=
  fun c => { c with baseURL := baseURL }

/-- Source `WithHTTPClient` from the functional-options file: the client under
construction now holds the caller-supplied `http.Client`. -/
def WithHTTPClient (httpClient : HttpClient) : ClientOption :=
  fun c => { c with httpClient := httpClient }

/-- Source `WithTimeout` from the functional-options file: `c.httpClient.Timeout =
timeout` mutates the `Timeout` field of whichever `http.Client` the client
currently holds; the identity tag is preserved (no new allocation). -/
def WithTimeout (timeout : Int) : ClientOption :=
  fun c => { c with httpClient := { c.httpClient with Timeout := timeout } }

/-- Source `NewClientWithOptions` from the functional-options file: a base client
seeded with defaults (fresh transport identity `freshId`), then the options
applied in order. -/
def NewClientWithOptions (freshId : Nat) (apiKey : String)
    (opts : List ClientOption) : Client :=
  opts.foldl (fun client opt => opt client)
    { apiKey := apiKey
      baseURL := DefaultBaseURL
      httpClient := { id := freshId, Timeout := DefaultTimeout } }

/-- Source `EmailAddress` from `types.go`. -/
structure EmailAddress where
  Email : String
  Name : String
  deriving Repr, DecidableEq

/-- A JSON value, the carrier for `map[string]any` template data
(`DynamicData`); numbers are modelled as integers, enough for every use in
this library, which never inspects the payload. -/
inductive JsonValue where
  | null : JsonValue
  | bool (b : Bool) : JsonValue
  | num (n : Int) : JsonValue
  | str (s : String) : JsonValue
  | arr (elems : List JsonValue) : JsonValue
  | obj (fields : List (String × JsonValue)) : JsonValue

/-- Source `SendEmailRequest` from `types.go`. -/
structure SendEmailRequest where
  To : EmailAddress
  From : EmailAddress
  Subject : String
  HTML : String
  Text : String
  TemplateID : String
  ReplyTo : Option EmailAddress
  UnsubscribeGroupID : String
  Categories : List String
  DynamicData : List (String × JsonValue)
  ScheduledAt : String
  CampaignName : String
  Test : Bool

/-- Go `time.Time` reduced to its instant (`queuedAt` is never inspected
by the library). -/
structure GoTime where
  unixNano : Int
  deriving Repr, DecidableEq

/-- The anonymous `data` struct of `SendEmailResponse` in `types.go`. -/
structure SendEmailResponseData where
  EmailID : String
  Status : String
  QueuedAt : GoTime
  deriving Repr, DecidableEq

/-- Source `SendEmailResponse` from `types.go`. -/
structure SendEmailResponse where
  Success : Bool
  Message : String
  Data : SendEmailResponseData
  deriving Repr, DecidableEq

/-- The anonymous `{field, message}` element type shared by
`ErrorResponse.Errors` and `APIError.Errors` in `types.go` and the error
file. -/
structure FieldError where
  Field : String
  Message : String
  deriving Repr, DecidableEq

/-- Source `ErrorResponse` from `types.go`. -/
structure ErrorResponse where
  Success : Bool
  Message : String
  Errors : List FieldError
  RetryAfter : Int
  deriving Repr, DecidableEq

/-- Source `RateLimitInfo` from `types.go`. -/
structure RateLimitInfo where
  Limit : Int
  Remaining : Int
  Reset : Int
  deriving Repr, DecidableEq

/-- Source `APIError` from the error file: status code, message, field errors,
retry-after seconds, and the nilable rate-limit snapshot. -/
structure APIError where
  StatusCode : Int
  Message : String
  Errors : List FieldError
  RetryAfter : Int
  RateLimitInfo : Option RateLimitInfo
  deriving Repr, DecidableEq

/-- Source `IsRateLimitError` from the error file. -/
def APIError.IsRateLimitError (e : APIError) : Bool :=
  e.StatusCode = 429

/-- Source `IsValidationError` from the error file. -/
def APIError.IsValidationError (e : APIError) : Bool :=
  e.StatusCode = 400

/-- Source `IsAuthenticationError` from the error file. -/
def APIError.IsAuthenticationError (e : APIError) : Bool :=
  e.StatusCode = 401

/-- Source `IsForbiddenError` from the error file. -/
def APIError.IsForbiddenError (e : APIError) : Bool :=
  e.StatusCode = 403

/-- Source `IsServerError` from the error file. -/
def APIError.IsServerError (e : APIError) : Bool :=
  e.StatusCode ≥ 500 && e.StatusCode < 600

/-- Source `GetRetryAfter` from the error file. -/
def APIError.GetRetryAfter (e : APIError) : Int :=
  if e.IsRateLimitError then e.RetryAfter else 0

/-! ### The Go standard library pieces the classifier depends on:
`strconv.Atoi` / `strconv.ParseInt(s, 10, 64)` and `http.Header`. -/

/-- The numeric value of a nonempty all-digit character list. -/
def digitsToNat (ds : List Char) : Nat :=
  ds.foldl (fun acc c => acc * 10 + (c.toNat - 48)) 0

/-- Parse a nonempty run of ASCII digits, the magnitude part of
`strconv.ParseInt`; `none` is Go's `ErrSyntax`. -/
def goParseDigits (ds : List Char) : Option Nat :=
  if !ds.isEmpty && ds.all Char.isDigit then some (digitsToNat ds) else none

/-- The syntax phase of `strconv.ParseInt(s, 10, 64)`: optional sign,
then one or more digits; `none` is Go's `ErrSyntax` (value 0). -/
def goScanInt (s : String) : Option Int :=
  match s.data with
  | [] => none
  | c :: rest =>
    if c = '-' then (goParseDigits rest).map (fun n => -(n : Int))
    else if c = '+' then (goParseDigits rest).map (fun n => (n : Int))
    else (goParseDigits (c :: rest)).map (fun n => (n : Int))

/-- Source `math.MaxInt64`. -/
def maxInt64 : Int := 9223372036854775807

/-- Source `math.MinInt64`. -/
def minInt64 : Int := -9223372036854775808

/-- The range phase of `strconv.ParseInt(s, 10, 64)`: on overflow Go
returns the nearest representable bound together with `ErrRange`. -/
def clampInt64 (v : Int) : Int :=
  if v > maxInt64 then maxInt64 else if v < minInt64 then minInt64 else v

/-- The value component of `strconv.Atoi s` (equivalently
`strconv.ParseInt(s, 10, 64)` on a 64-bit platform): 0 on a syntax
error, the clamped value otherwise.  `parseRateLimitHeaders` discards the
error component, so only this value reaches the program. -/
def goAtoi (s : String) : Int :=
  match goScanInt s with
  | none => 0
  | some v => clampInt64 v

/-- Source `http.Header` as an association list; the keys used by this library
are already in canonical MIME form. -/
def Header : Type := List (String × String)

/-- Source `http.Header.Set`: replace any existing value for the key. -/
def headerSet (h : Header) (key value : String) : Header :=
  (key, value) :: List.filter (fun p => p.1 ≠ key) h

/-- Source `http.Header.Get`: the value for the key, `""` when absent. -/
def headerGet (h : Header) (key : String) : String :=
  match List.find? (fun p => p.1 = key) h with
  | some p => p.2
  | none => ""

/-- Whether the header is present at all (Go: `len(h.Values(key)) > 0`),
distinguishing an absent key from one set to the empty string. -/
def headerHas (h : Header) (key : String) : Bool :=
  List.any h (fun p => p.1 = key)

/-! ### The HTTP exchange -/

/-- The outbound `http.Request` as this library builds it. -/
structure HTTPRequest where
  Method : String
  URL : String
  Headers : Header
  Body : Option String

/-- The inbound `http.Response` as this library reads it: status code,
headers, and the body text (already fully read; I/O errors while reading
an already-received body are below this embedding's granularity). -/
structure HTTPResponse where
  StatusCode : Int
  Headers : Header
  Body : String

/-- Go's `error` values as this library produces them. -/
inductive GoError where
  /-- Source `fmt.Errorf` with no wrapped cause. -/
  | errorf (msg : String) : GoError
  /-- Source `fmt.Errorf("<pre>: %w", err)`: a message prefix wrapping an
  underlying cause (kept as its message). -/
  | wrap (pre : String) (cause : String) : GoError
  /-- A `*APIError`. -/
  | apiError (e : APIError) : GoError
  deriving Repr, DecidableEq

/-- Whether a `GoError` is (as by `errors.As`) an `*APIError`. -/
def GoError.isAPIError : GoError → Bool
  | .apiError _ => true
  | _ => false

/-- The rate-limit snapshot attached to an error, when there is one. -/
def GoError.rateLimitInfoOf : GoError → Option RateLimitInfo
  | .apiError e => e.RateLimitInfo
  | _ => none

/-- The `encoding/json` codec, abstracted: the library only branches on
whether (un)marshalling succeeded, never on how, so the codec is a
parameter of the pipeline.  Failures carry the standard library's error
message. -/
structure JsonCodec where
  marshalSendEmailRequest : SendEmailRequest → Except String String
  unmarshalErrorResponse : String → Except String ErrorResponse
  unmarshalSendEmailResponse : String → Except String SendEmailResponse

/-- The transport (`http.Client.Do`): either a transport-level failure
(kept as its message) or a received response. -/
def Transport : Type := HTTPRequest → Except String HTTPResponse

/-- The request object `doRequest` constructs before dispatch: method,
`baseURL + path`, the four `Set` header calls (the idempotency one only
for a non-empty key), and the marshalled body. -/
def buildRequest (c : Client) (method path : String) (jsonBody : Option String)
    (idempotencyKey : String) : HTTPRequest :=
  let h1 := headerSet [] "Authorization" ("Bearer " ++ c.apiKey)
  let h2 := headerSet h1 "Content-Type" "application/json"
  let h3 := headerSet h2 "User-Agent" "autosend-go/1.0.0"
  let h4 := if idempotencyKey ≠ "" then headerSet h3 "Idempotency-Key" idempotencyKey else h3
  { Method := method, URL := c.baseURL ++ path, Headers := h4, Body := jsonBody }

/-- Source `doRequest` from `client.go`: marshal the body when present (failing
before any dispatch on a marshal error), build the request, dispatch it
over the transport, and wrap a transport failure.  The second component
lists the requests handed to `httpClient.Do`, so `[]` states that the
transport was never invoked. -/
def doRequest (codec : JsonCodec) (transport : Transport) (c : Client)
    (method path : String) (body : Option SendEmailRequest)
    (idempotencyKey : String) : Except GoError HTTPResponse × List HTTPRequest :=
  match body with
  | some b =>
    match codec.marshalSendEmailRequest b with
    | .error e => (.error (.wrap "failed to marshal request body" e), [])
    | .ok jsonBody =>
      let req := buildRequest c method path (some jsonBody) idempotencyKey
      match transport req with
      | .error e => (.error (.wrap "request failed" e), [req])
      | .ok resp => (.ok resp, [req])
  | none =>
    let req := buildRequest c method path none idempotencyKey
    match transport req with
    | .error e => (.error (.wrap "request failed" e), [req])
    | .ok resp => (.ok resp, [req])

/-- Source `parseRateLimitHeaders` from `client.go`: start from the zero
`RateLimitInfo`, then for each of the three headers that is present and
non-empty, assign the `strconv` value, discarding the parse error. -/
def parseRateLimitHeaders (headers : Header) : RateLimitInfo :=
  let limit := headerGet headers "X-RateLimit-Limit"
  let remaining := headerGet headers "X-RateLimit-Remaining"
  let reset := headerGet headers "X-RateLimit-Reset"
  { Limit := if limit ≠ "" then goAtoi limit else 0
    Remaining := if remaining ≠ "" then goAtoi remaining else 0
    Reset := if reset ≠ "" then goAtoi reset else 0 }

/-- Source `handleErrorResponse` from `client.go`: try to unmarshal the body as
`ErrorResponse`; on failure return the generic
`fmt.Errorf("API error (status %d): %s", status, body)`; on success
return a `*APIError` carrying the parsed fields and the rate-limit
headers. -/
def handleErrorResponse (codec : JsonCodec) (resp : HTTPResponse) : GoError :=
  match codec.unmarshalErrorResponse resp.Body with
  | .error _ =>
    .errorf ("API error (status " ++ toString resp.StatusCode ++ "): " ++ resp.Body)
  | .ok errResp =>
    let rateLimitInfo := parseRateLimitHeaders resp.Headers
    .apiError
      { StatusCode := resp.StatusCode
        Message := errResp.Message
        Errors := errResp.Errors
        RetryAfter := errResp.RetryAfter
        RateLimitInfo := some rateLimitInfo }

/-- Source `validateSendEmailRequest` from `email.go`: the five ordered checks,
each returning its own `fmt.Errorf` message; `none` means valid. -/
def validateSendEmailRequest (req : Option SendEmailRequest) : Option GoError :=
  match req with
  | none => some (.errorf "request cannot be nil")
  | some r =>
    if r.To.Email = "" then some (.errorf "to.email is required")
    else if r.From.Email = "" then some (.errorf "from.email is required")
    else if r.TemplateID = "" ∧ r.HTML = "" ∧ r.Text = "" then
      some (.errorf "either templateId or html/text content must be provided")
    else if r.TemplateID = "" ∧ r.Subject = "" then
      some (.errorf "subject is required when not using a template")
    else none

/-- Source `SendEmailWithIdempotency` from `email.go`: validate, dispatch via
`doRequest`, classify any non-200 status, and parse a 200 body as
`SendEmailResponse`, wrapping a parse failure as
`fmt.Errorf("failed to parse response: %w", err)`.  The second component
is the transport invocation trace from `doRequest`. -/
def SendEmailWithIdempotency (codec : JsonCodec) (transport : Transport)
    (c : Client) (req : Option SendEmailRequest) (idempotencyKey : String) :
    Except GoError SendEmailResponse × List HTTPRequest :=
  match validateSendEmailRequest req with
  | some err => (.error err, [])
  | none =>
    match doRequest codec transport c "POST" "/mails/send" req idempotencyKey with
    | (.error err, trace) => (.error err, trace)
    | (.ok resp, trace) =>
      if resp.StatusCode ≠ 200 then
        (.error (handleErrorResponse codec resp), trace)
      else
        match codec.unmarshalSendEmailResponse resp.Body with
        | .error e => (.error (.wrap "failed to parse response" e), trace)
        | .ok emailResp => (.ok emailResp, trace)

/-- Source `SendEmail` from `email.go`: `SendEmailWithIdempotency` with an empty
idempotency key. -/
def SendEmail (codec : JsonCodec) (transport : Transport) (c : Client)
    (req : Option SendEmailRequest) : Except GoError SendEmailResponse × List HTTPRequest :=
  SendEmailWithIdempotency codec transport c req ""

/-! ### A second, spec-side reading of validation, for the refinement
claim about `validateSendEmailRequest`. -/

/-- The first failing check of an ordered check list, as the spec words
it: "checks, in order, short-circuiting on first failure". -/
def firstFailure : List (Bool × String) → Option String
  | [] => none
  | (failed, msg) :: rest => if failed then some msg else firstFailure rest

/-- Modelled from the spec words for the Validation component: the five
ordered checks (non-null request, non-empty `to.email`, non-empty
`from.email`, some content among `templateId`/`html`/`text`, and a
subject when no template), short-circuiting on the first failure, with
the failure messages taken from the source. -/
def validateSpec (req : Option SendEmailRequest) : Option String :=
  match req with
  | none => some "request cannot be nil"
  | some r =>
    firstFailure
      [ (r.To.Email == "", "to.email is required"),
        (r.From.Email == "", "from.email is required"),
        (r.TemplateID == "" && r.HTML == "" && r.Text == "",
          "either templateId or html/text content must be provided"),
        (r.TemplateID == "" && r.Subject == "",
          "subject is required when not using a template") ]

/-- The five validation failure messages, in check order. -/
def validationMessages : List String :=
  [ "request cannot be nil",
    "to.email is required",
    "from.email is required",
    "either templateId or html/text content must be provided",
    "subject is required when not using a template" ]

/-! ### Concrete fixtures used by witnesses and counterexamples. -/

/-- A valid template-only request: `templateId` set, `html`/`text`/
`subject` all empty. -/
def sampleRequest : SendEmailRequest :=
  { To := { Email := "customer@example.com", Name := "" }
    From := { Email := "hello@mail.example.com", Name := "" }
    Subject := ""
    HTML := ""
    Text := ""
    TemplateID := "tmpl_1"
    ReplyTo := none
    UnsubscribeGroupID := ""
    Categories := []
    DynamicData := []
    ScheduledAt := ""
    CampaignName := ""
    Test := false }

/-- A request missing `to.email`. -/
def invalidRequest : SendEmailRequest :=
  { sampleRequest with To := { Email := "", Name := "" } }

/-- A sample client with defaults. -/
def sampleClient : Client := NewClient 0 "key_123"

/-- A codec standing for `encoding/json` on inputs where unmarshalling
fails (for instance an HTML error page, which `json.Unmarshal` rejects
with a syntax error); marshalling of a request value succeeds. -/
def codecRejecting : JsonCodec :=
  { marshalSendEmailRequest := fun _ => .ok "payload"
    unmarshalErrorResponse := fun _ =>
      .error "invalid character < looking for beginning of value"
    unmarshalSendEmailResponse := fun _ =>
      .error "invalid character < looking for beginning of value" }

/-- The zero `SendEmailResponse`, as `json.Unmarshal` leaves the target
after decoding an empty JSON object (all fields keep their zero values,
in particular `Success = false`). -/
def zeroSendEmailResponse : SendEmailResponse :=
  { Success := false
    Message := ""
    Data := { EmailID := "", Status := "", QueuedAt := { unixNano := 0 } } }

/-- A codec standing for `encoding/json` on a success body that is the
empty JSON object: decoding into `SendEmailResponse` succeeds with all
zero values. -/
def codecEmptyObject : JsonCodec :=
  { marshalSendEmailRequest := fun _ => .ok "payload"
    unmarshalErrorResponse := fun _ =>
      .error "invalid character < looking for beginning of value"
    unmarshalSendEmailResponse := fun _ => .ok zeroSendEmailResponse }

/-- A transport that always yields the given response. -/
def transportReturning (resp : HTTPResponse) : Transport :=
  fun _ => .ok resp

/-- A 503 response whose body is an HTML error page, with a rate-limit
header present. -/
def resp503 : HTTPResponse :=
  { StatusCode := 503
    Headers := [("X-RateLimit-Limit", "50")]
    Body := "<html>Service Unavailable</html>" }

/-- A 429 response with all three rate-limit headers present and
parsable but whose body is not valid JSON. -/
def resp429bad : HTTPResponse :=
  { StatusCode := 429
    Headers := [("X-RateLimit-Limit", "50"),
                ("X-RateLimit-Remaining", "0"),
                ("X-RateLimit-Reset", "1700000000")]
    Body := "not json" }

/-- A 200 response (its body only matters through the codec). -/
def resp200 : HTTPResponse :=
  { StatusCode := 200, Headers := [], Body := "response body" }

/-- A config supplying both a non-nil `HTTPClient` (own timeout 5) and a
non-zero `Timeout` of 10. -/
def conflictConfig : Config :=
  { APIKey := "k"
    BaseURL := ""
    HTTPClient := some { id := 7, Timeout := 5 }
    Timeout := 10 }

/-- The `ErrorResponse` carried by the rate-limited fixture body. -/
def parsed429 : ErrorResponse :=
  { Success := false, Message := "rate limited", Errors := [], RetryAfter := 5 }

/-- A codec standing for `encoding/json` on inputs where the error body
parses as `ErrorResponse` (the rate-limited fixture). -/
def codecParsing429 : JsonCodec :=
  { marshalSendEmailRequest := fun _ => .ok "payload"
    unmarshalErrorResponse := fun _ => .ok parsed429
    unmarshalSendEmailResponse := fun _ =>
      .error "invalid character < looking for beginning of value" }

/-- A config with every defaultable field zero-valued. -/
def emptyConfig : Config :=
  { APIKey := "k", BaseURL := "", HTTPClient := none, Timeout := 0 }

/-! ## Theorems -/

/-- C4: `validateSendEmailRequest` is a pure function performing exactly
the five ordered checks of the spec, short-circuiting on the first
failure (it equals the spec-side first-failure scan), the five failure
messages are pairwise distinct, and every request with non-empty
`to.email`, `from.email` and `templateId` passes validation even when
`html`, `text` and `subject` are all empty. -/
theorem c4_validation_checks :
    (∀ req : Option SendEmailRequest,
      validateSendEmailRequest req = (validateSpec req).map GoError.errorf) ∧
    validationMessages.Pairwise (fun a b => a ≠ b) ∧
    (∀ r : SendEmailRequest,
      r.To.Email ≠ "" → r.From.Email ≠ "" → r.TemplateID ≠ "" →
      validateSendEmailRequest (some r) = none) := by
  refine ⟨?_, by decide, ?_⟩
  · intro req
    cases req with
    | none => rfl
    | some r =>
      simp only [validateSendEmailRequest, validateSpec, firstFailure,
        Bool.and_eq_true, beq_iff_eq]
      split_ifs <;> simp_all [firstFailure]
  · intro r hTo hFrom hTmpl
    simp [validateSendEmailRequest, hTo, hFrom, hTmpl]

/-- C4 witness: the template-only fixture request (non-empty `to.email`,
`from.email`, `templateId`; empty `html`, `text`, `subject`) passes
validation. -/
theorem c4_validation_checks_witness :
    validateSendEmailRequest (some sampleRequest) = none :=
  c4_validation_checks.2.2 sampleRequest (by decide) (by decide) (by decide)

/-- C6: whenever validation fails, `SendEmailWithIdempotency` returns
the validation error and the transport invocation trace is empty: no
request is built or dispatched. -/
theorem c6_no_network_on_invalid (codec : JsonCodec) (transport : Transport)
    (c : Client) (req : Option SendEmailRequest) (idempotencyKey : String)
    (err : GoError) (h : validateSendEmailRequest req = some err) :
    SendEmailWithIdempotency codec transport c req idempotencyKey =
      (.error err, []) := by
  unfold SendEmailWithIdempotency
  rw [h]

/-- C6 witness: a request missing `to.email` yields the validation error
with an empty transport trace, at a concrete codec and transport. -/
theorem c6_no_network_on_invalid_witness :
    SendEmailWithIdempotency codecRejecting (transportReturning resp200)
      sampleClient (some invalidRequest) "key-1" =
      (.error (.errorf "to.email is required"), []) :=
  c6_no_network_on_invalid codecRejecting (transportReturning resp200)
    sampleClient (some invalidRequest) "key-1"
    (.errorf "to.email is required") (by rfl)

/-- C7: each `APIError` classification predicate is a pure function of
`StatusCode` alone, holding exactly on its documented status codes, and
`GetRetryAfter` returns the stored `RetryAfter` when `IsRateLimitError`
holds and `0` otherwise. -/
theorem c7_predicates_pure (e : APIError) :
    (e.IsRateLimitError = true ↔ e.StatusCode = 429) ∧
    (e.IsValidationError = true ↔ e.StatusCode = 400) ∧
    (e.IsAuthenticationError = true ↔ e.StatusCode = 401) ∧
    (e.IsForbiddenError = true ↔ e.StatusCode = 403) ∧
    (e.IsServerError = true ↔ 500 ≤ e.StatusCode ∧ e.StatusCode < 600) ∧
    (e.IsRateLimitError = true → e.GetRetryAfter = e.RetryAfter) ∧
    (e.IsRateLimitError = false → e.GetRetryAfter = 0) := by
  refine ⟨?_, ?_, ?_, ?_, ?_, ?_, ?_⟩ <;>
    simp [APIError.IsRateLimitError, APIError.IsValidationError,
      APIError.IsAuthenticationError, APIError.IsForbiddenError,
      APIError.IsServerError, APIError.GetRetryAfter] <;>
    intro h <;> simp_all

/-- C7 witness: at status 429 the retry-after value (7) is returned; at
status 500 with the same stored value, 0 is returned. -/
theorem c7_predicates_pure_witness :
    ({ StatusCode := 429, Message := "", Errors := [], RetryAfter := 7,
       RateLimitInfo := none } : APIError).GetRetryAfter = 7 ∧
    ({ StatusCode := 500, Message := "", Errors := [], RetryAfter := 7,
       RateLimitInfo := none } : APIError).GetRetryAfter = 0 :=
  ⟨(c7_predicates_pure _).2.2.2.2.2.1 (by decide),
   (c7_predicates_pure _).2.2.2.2.2.2 (by decide)⟩

/-- C3 counterexample: with a supplied `HTTPClient` (whose own timeout
is 5) and an explicit non-zero `Timeout` of 10, the constructed client
requests with timeout 5 — the explicit `Timeout` does not take effect. -/
theorem c3_counterexample :
    (NewClientWithConfig 99 conflictConfig).httpClient.Timeout = 5 ∧
    (NewClientWithConfig 99 conflictConfig).httpClient.Timeout ≠
      conflictConfig.Timeout := by
  decide

/-- C3 (amended): `NewClientWithConfig` replaces an empty `BaseURL` by
the default and keeps a non-empty one; a supplied `HTTPClient` is used
exactly as given (the `Timeout` field is then ignored); only when
`HTTPClient` is nil is a fresh client built, with the explicit `Timeout`
when non-zero and the default when zero; the API key is always copied. -/
theorem c3_config_defaults (freshId : Nat) (config : Config) :
    (NewClientWithConfig freshId config).apiKey = config.APIKey ∧
    (config.BaseURL = "" →
      (NewClientWithConfig freshId config).baseURL = DefaultBaseURL) ∧
    (config.BaseURL ≠ "" →
      (NewClientWithConfig freshId config).baseURL = config.BaseURL) ∧
    (∀ hc, config.HTTPClient = some hc →
      (NewClientWithConfig freshId config).httpClient = hc) ∧
    (config.HTTPClient = none → config.Timeout = 0 →
      (NewClientWithConfig freshId config).httpClient =
        { id := freshId, Timeout := DefaultTimeout }) ∧
    (config.HTTPClient = none → config.Timeout ≠ 0 →
      (NewClientWithConfig freshId config).httpClient =
        { id := freshId, Timeout := config.Timeout }) := by
  unfold NewClientWithConfig
  refine ⟨rfl, ?_, ?_, ?_, ?_, ?_⟩
  · intro h; simp [h]
  · intro h; simp [h]
  · intro hc h; simp [h]
  · intro h h0; simp [h, h0]
  · intro h h0; simp [h, h0]

/-- C3 witness: at a config with empty `BaseURL`, nil `HTTPClient` and
zero `Timeout`, all defaults apply. -/
theorem c3_config_defaults_witness :
    (NewClientWithConfig 3 emptyConfig).httpClient =
      { id := 3, Timeout := DefaultTimeout } :=
  (c3_config_defaults 3 emptyConfig).2.2.2.2.1 (by rfl) (by rfl)

/-- C10: `WithTimeout` writes the timeout into whichever `http.Client`
the client under construction currently holds, preserving `apiKey`,
`baseURL` and the held client object identity; hence after
`WithHTTPClient hc` then `WithTimeout t` in `NewClientWithOptions`, the
resulting transport is the caller-supplied `hc` itself (same identity)
with its `Timeout` field set to `t` — no new transport is created. -/
theorem c10_with_timeout_in_place :
    (∀ (c : Client) (t : Int),
      (WithTimeout t c).apiKey = c.apiKey ∧
      (WithTimeout t c).baseURL = c.baseURL ∧
      (WithTimeout t c).httpClient.id = c.httpClient.id ∧
      (WithTimeout t c).httpClient.Timeout = t) ∧
    (∀ (freshId : Nat) (apiKey : String) (hc : HttpClient) (t : Int),
      (NewClientWithOptions freshId apiKey
          [WithHTTPClient hc, WithTimeout t]).httpClient =
        { id := hc.id, Timeout := t }) := by
  constructor
  · intro c t
    exact ⟨rfl, rfl, rfl, rfl⟩
  · intro freshId apiKey hc t
    rfl

/-- C1 counterexample: for the 503 response with an HTML body (which
`json.Unmarshal` rejects), `handleErrorResponse` does not return an
`APIError` value at all: it returns the generic formatted error, whose
message carries an "API error (status 503): " prefix rather than the raw
body text verbatim. -/
theorem c1_counterexample :
    (handleErrorResponse codecRejecting resp503).isAPIError = false ∧
    handleErrorResponse codecRejecting resp503 =
      .errorf "API error (status 503): <html>Service Unavailable</html>" ∧
    GoError.errorf "API error (status 503): <html>Service Unavailable</html>" ≠
      .errorf resp503.Body := by
  refine ⟨rfl, rfl, by decide⟩

/-- C1 (amended): for every non-200 response the classifier never
propagates the JSON parse error: when the body parses as
`ErrorResponse` it returns an `APIError` built from it, and when it does
not, it returns a plain formatted error — not an `APIError` — whose
message is the raw body text prefixed by "API error (status N): ", with
no field-error list at all. -/
theorem c1_classifier_fallback (codec : JsonCodec) (resp : HTTPResponse) :
    (∀ er, codec.unmarshalErrorResponse resp.Body = .ok er →
      handleErrorResponse codec resp =
        .apiError { StatusCode := resp.StatusCode, Message := er.Message,
                    Errors := er.Errors, RetryAfter := er.RetryAfter,
                    RateLimitInfo := some (parseRateLimitHeaders resp.Headers) }) ∧
    (∀ em, codec.unmarshalErrorResponse resp.Body = .error em →
      handleErrorResponse codec resp =
        .errorf ("API error (status " ++ toString resp.StatusCode ++ "): "
          ++ resp.Body) ∧
      (handleErrorResponse codec resp).isAPIError = false) := by
  constructor
  · intro er h
    unfold handleErrorResponse
    rw [h]
  · intro em h
    unfold handleErrorResponse
    rw [h]
    exact ⟨rfl, rfl⟩

/-- C1 witness: both branches at concrete inputs — the rejecting codec
on the 503 HTML response yields the generic error, and a codec that
parses the 429 body yields the corresponding `APIError`. -/
theorem c1_classifier_fallback_witness :
    handleErrorResponse codecRejecting resp503 =
      .errorf ("API error (status " ++ toString resp503.StatusCode ++ "): "
        ++ resp503.Body) ∧
    handleErrorResponse codecParsing429 resp429bad =
      .apiError { StatusCode := resp429bad.StatusCode,
                  Message := parsed429.Message,
                  Errors := parsed429.Errors,
                  RetryAfter := parsed429.RetryAfter,
                  RateLimitInfo := some (parseRateLimitHeaders resp429bad.Headers) } :=
  ⟨((c1_classifier_fallback codecRejecting resp503).2 _ (by rfl)).1,
   (c1_classifier_fallback codecParsing429 resp429bad).1 parsed429 (by rfl)⟩

/-- C2 counterexample: for the 429 response whose three rate-limit
headers are all present and parsable but whose body is not valid JSON,
the resulting error carries no `RateLimitInfo` at all — the headers are
not parsed on the fallback path. -/
theorem c2_counterexample :
    (handleErrorResponse codecRejecting resp429bad).rateLimitInfoOf = none := by
  rfl

/-- C2 (amended): rate-limit header parsing tolerates absent or
syntactically invalid headers as zero values for each field
independently, and the resulting `RateLimitInfo` is attached to the
classifier's output exactly when the body parses as `ErrorResponse`; on
the fallback path no `RateLimitInfo` is attached. -/
theorem c2_rate_limit_headers (codec : JsonCodec) (resp : HTTPResponse)
    (headers : Header) :
    ((headerGet headers "X-RateLimit-Limit" = "" ∨
        goScanInt (headerGet headers "X-RateLimit-Limit") = none) →
      (parseRateLimitHeaders headers).Limit = 0) ∧
    ((headerGet headers "X-RateLimit-Remaining" = "" ∨
        goScanInt (headerGet headers "X-RateLimit-Remaining") = none) →
      (parseRateLimitHeaders headers).Remaining = 0) ∧
    ((headerGet headers "X-RateLimit-Reset" = "" ∨
        goScanInt (headerGet headers "X-RateLimit-Reset") = none) →
      (parseRateLimitHeaders headers).Reset = 0) ∧
    (∀ er, codec.unmarshalErrorResponse resp.Body = .ok er →
      (handleErrorResponse codec resp).rateLimitInfoOf =
        some (parseRateLimitHeaders resp.Headers)) ∧
    (∀ em, codec.unmarshalErrorResponse resp.Body = .error em →
      (handleErrorResponse codec resp).rateLimitInfoOf = none) := by
  refine ⟨?_, ?_, ?_, ?_, ?_⟩
  · rintro (h | h) <;> simp [parseRateLimitHeaders, h, goAtoi]
  · rintro (h | h) <;> simp [parseRateLimitHeaders, h, goAtoi]
  · rintro (h | h) <;> simp [parseRateLimitHeaders, h, goAtoi]
  · intro er h
    unfold handleErrorResponse
    rw [h]
    rfl
  · intro em h
    unfold handleErrorResponse
    rw [h]
    rfl

/-- C2 witness: absent headers yield the all-zero snapshot; a
syntactically invalid header yields zero for its field while a parsable
one is parsed; and on a parsed 429 body the snapshot is attached with
the header values. -/
theorem c2_rate_limit_headers_witness :
    (parseRateLimitHeaders []).Limit = 0 ∧
    (parseRateLimitHeaders [("X-RateLimit-Limit", "abc")]).Limit = 0 ∧
    (handleErrorResponse codecParsing429 resp429bad).rateLimitInfoOf =
      some { Limit := 50, Remaining := 0, Reset := 1700000000 } :=
  ⟨(c2_rate_limit_headers codecRejecting resp200 []).1 (Or.inl (by rfl)),
   (c2_rate_limit_headers codecRejecting resp200
      [("X-RateLimit-Limit", "abc")]).1 (Or.inr (by rfl)),
   by
    rw [(c2_rate_limit_headers codecParsing429 resp429bad
      resp429bad.Headers).2.2.2.1 parsed429 (by rfl)]
    rfl⟩

/-- C5: in `SendEmailWithIdempotency`, once the request is dispatched
and a response received, a status of exactly 200 is the sole success
path: any other status yields exactly the classifier's error (never a
`SendEmailResponse`), and a 200 response whose body fails to parse as
`SendEmailResponse` yields the wrapped decoding error, which differs
from every plain `fmt.Errorf` (validation and the classifier fallback),
every `*APIError`, and every transport or marshalling wrap. -/
theorem c5_status_200_sole_success (codec : JsonCodec) (transport : Transport)
    (c : Client) (r : SendEmailRequest) (idempotencyKey jsonBody : String)
    (resp : HTTPResponse)
    (hval : validateSendEmailRequest (some r) = none)
    (hmar : codec.marshalSendEmailRequest r = .ok jsonBody)
    (htr : transport (buildRequest c "POST" "/mails/send" (some jsonBody)
      idempotencyKey) = .ok resp) :
    (resp.StatusCode ≠ 200 →
      (SendEmailWithIdempotency codec transport c (some r) idempotencyKey).1 =
        .error (handleErrorResponse codec resp)) ∧
    (resp.StatusCode = 200 →
      ∀ em, codec.unmarshalSendEmailResponse resp.Body = .error em →
      (SendEmailWithIdempotency codec transport c (some r) idempotencyKey).1 =
        .error (.wrap "failed to parse response" em) ∧
      (∀ msg, GoError.wrap "failed to parse response" em ≠ .errorf msg) ∧
      (∀ e, GoError.wrap "failed to parse response" em ≠ .apiError e) ∧
      (∀ cause, GoError.wrap "failed to parse response" em ≠
        .wrap "request failed" cause) ∧
      (∀ cause, GoError.wrap "failed to parse response" em ≠
        .wrap "failed to marshal request body" cause)) := by
  have hpipe : SendEmailWithIdempotency codec transport c (some r) idempotencyKey =
      (if resp.StatusCode ≠ 200 then
        (.error (handleErrorResponse codec resp),
          [buildRequest c "POST" "/mails/send" (some jsonBody) idempotencyKey])
      else
        match codec.unmarshalSendEmailResponse resp.Body with
        | .error e => (.error (.wrap "failed to parse response" e),
            [buildRequest c "POST" "/mails/send" (some jsonBody) idempotencyKey])
        | .ok emailResp => (.ok emailResp,
            [buildRequest c "POST" "/mails/send" (some jsonBody) idempotencyKey])) := by
    simp only [SendEmailWithIdempotency, doRequest, hval, hmar, htr]
  constructor
  · intro hne
    rw [hpipe]
    simp [hne]
  · intro h200 em hdec
    constructor
    · rw [hpipe]
      simp [h200, hdec]
    · exact ⟨(fun msg hc => by cases hc), (fun e hc => by cases hc),
        (fun cause hc => by simp at hc), (fun cause hc => by simp at hc)⟩

/-- C5 witness: at concrete inputs both hypotheses hold and the non-200
branch produces the classifier error: the rejecting codec, a transport
answering 503, and the valid template-only request. -/
theorem c5_status_200_sole_success_witness :
    (SendEmailWithIdempotency codecRejecting (transportReturning resp503)
      sampleClient (some sampleRequest) "").1 =
      .error (handleErrorResponse codecRejecting resp503) :=
  (c5_status_200_sole_success codecRejecting (transportReturning resp503)
    sampleClient sampleRequest "" "payload" resp503
    (by rfl) (by rfl) (by rfl)).1 (by decide)

/-- C9: for every response with status exactly 200 whose body the codec
decodes into some `SendEmailResponse` value — whatever that value is,
including one with `Success = false` and all-zero fields —
`SendEmailWithIdempotency` returns exactly that value with no error:
the `Success` and `Message` fields are never inspected. -/
theorem c9_success_not_inspected (codec : JsonCodec) (transport : Transport)
    (c : Client) (r : SendEmailRequest) (idempotencyKey jsonBody : String)
    (resp : HTTPResponse) (emailResp : SendEmailResponse)
    (hval : validateSendEmailRequest (some r) = none)
    (hmar : codec.marshalSendEmailRequest r = .ok jsonBody)
    (htr : transport (buildRequest c "POST" "/mails/send" (some jsonBody)
      idempotencyKey) = .ok resp)
    (h200 : resp.StatusCode = 200)
    (hdec : codec.unmarshalSendEmailResponse resp.Body = .ok emailResp) :
    (SendEmailWithIdempotency codec transport c (some r) idempotencyKey).1 =
      .ok emailResp := by
  simp only [SendEmailWithIdempotency, doRequest, hval, hmar, htr]
  simp [h200, hdec]

/-- C9 witness: a 200 response whose body decodes as the empty JSON
object (all-zero `SendEmailResponse`, `Success = false`) is returned
as-is. -/
theorem c9_success_not_inspected_witness :
    (SendEmailWithIdempotency codecEmptyObject (transportReturning resp200)
      sampleClient (some sampleRequest) "").1 = .ok zeroSendEmailResponse :=
  c9_success_not_inspected codecEmptyObject (transportReturning resp200)
    sampleClient sampleRequest "" "payload" resp200 zeroSendEmailResponse
    (by rfl) (by rfl) (by rfl) (by rfl) (by rfl)

/-- Every request `doRequest` hands to the transport is the request
built by `buildRequest` for some marshalled body. -/
theorem doRequest_trace_shape (codec : JsonCodec) (transport : Transport)
    (c : Client) (method path : String) (body : Option SendEmailRequest)
    (idempotencyKey : String) (req : HTTPRequest)
    (hmem : req ∈ (doRequest codec transport c method path body idempotencyKey).2) :
    ∃ jsonBody : Option String,
      req = buildRequest c method path jsonBody idempotencyKey := by
  unfold doRequest at hmem
  cases body with
  | none =>
    cases htr : transport (buildRequest c method path none idempotencyKey) <;>
      simp [htr] at hmem <;> exact ⟨none, hmem⟩
  | some b =>
    cases hm : codec.marshalSendEmailRequest b with
    | error e => simp [hm] at hmem
    | ok jsonBody =>
      cases htr : transport (buildRequest c method path (some jsonBody)
          idempotencyKey) <;>
        simp [hm, htr] at hmem <;> exact ⟨some jsonBody, hmem⟩

/-- The transport trace of `SendEmailWithIdempotency` is contained in
the trace of its inner `doRequest` call. -/
theorem sendEmail_trace_sub (codec : JsonCodec) (transport : Transport)
    (c : Client) (req : Option SendEmailRequest) (idempotencyKey : String)
    (r : HTTPRequest)
    (hmem : r ∈ (SendEmailWithIdempotency codec transport c req idempotencyKey).2) :
    r ∈ (doRequest codec transport c "POST" "/mails/send" req idempotencyKey).2 := by
  unfold SendEmailWithIdempotency at hmem
  cases hv : validateSendEmailRequest req with
  | some e => rw [hv] at hmem; simp at hmem
  | none =>
    rw [hv] at hmem
    revert hmem
    rcases hd : doRequest codec transport c "POST" "/mails/send" req
        idempotencyKey with ⟨fst, snd⟩
    cases fst with
    | error e => intro hmem; simpa using hmem
    | ok resp =>
      by_cases h200 : resp.StatusCode ≠ 200
      · simp [h200]
      · cases hdec : codec.unmarshalSendEmailResponse resp.Body <;>
          simp [h200, hdec]

/-- The header properties of every request built by `buildRequest`. -/
theorem buildRequest_headers (c : Client) (method path : String)
    (jsonBody : Option String) (idempotencyKey : String) :
    headerGet (buildRequest c method path jsonBody idempotencyKey).Headers
      "Authorization" = "Bearer " ++ c.apiKey ∧
    headerGet (buildRequest c method path jsonBody idempotencyKey).Headers
      "Content-Type" = "application/json" ∧
    headerGet (buildRequest c method path jsonBody idempotencyKey).Headers
      "User-Agent" = "autosend-go/1.0.0" ∧
    (headerHas (buildRequest c method path jsonBody idempotencyKey).Headers
      "Idempotency-Key" = true ↔ idempotencyKey ≠ "") ∧
    (idempotencyKey ≠ "" →
      headerGet (buildRequest c method path jsonBody idempotencyKey).Headers
        "Idempotency-Key" = idempotencyKey) := by
  by_cases hk : idempotencyKey = "" <;>
    simp [buildRequest, headerSet, headerGet, headerHas, hk, List.find?,
      List.filter, List.any]

/-- C8: every request in the transport trace of `doRequest` carries
`Authorization: Bearer <apiKey>`, `Content-Type: application/json` and
`User-Agent: autosend-go/1.0.0`, and carries the `Idempotency-Key`
header (with the supplied value) if and only if the supplied key is
non-empty; `SendEmail` passes the empty key, so no request it dispatches
ever carries that header. -/
theorem c8_idempotency_header_iff :
    (∀ (codec : JsonCodec) (transport : Transport) (c : Client)
      (method path : String) (body : Option SendEmailRequest)
      (idempotencyKey : String) (req : HTTPRequest),
      req ∈ (doRequest codec transport c method path body idempotencyKey).2 →
      headerGet req.Headers "Authorization" = "Bearer " ++ c.apiKey ∧
      headerGet req.Headers "Content-Type" = "application/json" ∧
      headerGet req.Headers "User-Agent" = "autosend-go/1.0.0" ∧
      (headerHas req.Headers "Idempotency-Key" = true ↔ idempotencyKey ≠ "") ∧
      (idempotencyKey ≠ "" →
        headerGet req.Headers "Idempotency-Key" = idempotencyKey)) ∧
    (∀ (codec : JsonCodec) (transport : Transport) (c : Client)
      (r : Option SendEmailRequest) (req : HTTPRequest),
      req ∈ (SendEmail codec transport c r).2 →
      headerHas req.Headers "Idempotency-Key" = false) := by
  constructor
  · intro codec transport c method path body idempotencyKey req hmem
    obtain ⟨jsonBody, rfl⟩ :=
      doRequest_trace_shape codec transport c method path body idempotencyKey
        req hmem
    exact buildRequest_headers c method path jsonBody idempotencyKey
  · intro codec transport c r req hmem
    obtain ⟨jsonBody, rfl⟩ :=
      doRequest_trace_shape codec transport c "POST" "/mails/send" r "" req
        (sendEmail_trace_sub codec transport c r "" req hmem)
    have hiff := (buildRequest_headers c "POST" "/mails/send" jsonBody "").2.2.2.1
    simp only [ne_eq, not_true_eq_false, iff_false, Bool.not_eq_true] at hiff
    exact hiff

/-- C8 witness: at a concrete client, codec and transport, the one
request dispatched with the non-empty key "key-9" carries the
idempotency header with exactly that value. -/
theorem c8_idempotency_header_iff_witness :
    headerGet (buildRequest sampleClient "POST" "/mails/send" (some "payload")
      "key-9").Headers "Idempotency-Key" = "key-9" :=
  (c8_idempotency_header_iff.1 codecRejecting (transportReturning resp200)
    sampleClient "POST" "/mails/send" (some sampleRequest) "key-9"
    (buildRequest sampleClient "POST" "/mails/send" (some "payload") "key-9")
    (List.Mem.head _)).2.2.2.2 (by decide)

end Autosend
